import Mathlib

/-!
Shallow embedding of the persistence layer in src/database.py of the
KoYaAsli repository.  Each table is a Lean list of records mirroring the
SQLite schema created by init_db; each operation is a pure function on the
whole database state mirroring the SQL the source executes.  Timestamps are
modelled as integers (seconds); a stored TIMESTAMP column that may fail
datetime.fromisoformat is modelled by TsVal, whose invalid branch stands for
an unparsable string.  Random referral-code generation
(secrets.randbelow inside create_user) is modelled by passing the generated
code as an explicit argument.  SQLite REAL (rating_score) is modelled by the
rationals, INTEGER columns by Int, AUTOINCREMENT ids by max-so-far + 1.
Every operation in the source opens its own connection and issues either a
single statement or a short sequence ended by one commit, so each is one
atomic transition of the state.
-/

namespace KoYa

/-- A value stored in a TIMESTAMP column: either a well-formed ISO string,
carrying the instant it denotes, or an unparsable string (the branch on which
datetime.fromisoformat would raise ValueError in is_premium_active). -/
inductive TsVal where
  | valid (t : Int)
  | invalid (s : String)
deriving DecidableEq

/-- datetime.fromisoformat on a stored timestamp, with the ValueError branch
returned as none. -/
def parseTs : TsVal → Option Int
  | .valid t => some t
  | .invalid _ => none

/-- One row of the users table (schema in init_db). -/
structure User where
  user_id : Nat
  username : String
  first_name : String
  last_name : String
  is_premium : Bool
  premium_expires_at : Option TsVal
  referral_code : String
  referred_by : Option Nat
  created_at : Int
  last_activity : Int
  total_sessions : Int
  words_learned : Int
  quiz_score_total : Int
  quiz_attempts : Int
  rating_score : ℚ
  referral_count : Int
deriving DecidableEq

/-- One row of the sections table. -/
structure Section where
  id : Nat
  name : String
  description : String
  language : String
  is_premium : Bool
  created_at : Int
  created_by : Option Nat
deriving DecidableEq

/-- One row of the subsections table. -/
structure Subsection where
  id : Nat
  section_id : Nat
  name : String
  description : String
  is_premium : Bool
  created_at : Int
deriving DecidableEq

/-- One row of the content table (section_id and subsection_id default to 0,
the "unassigned" sentinel; both are plain INTEGER columns). -/
structure Content where
  id : Nat
  section_id : Nat
  subsection_id : Nat
  title : String
  description : String
  content_type : String
  file_id : Option String
  content_text : Option String
  is_premium : Bool
  created_at : Int
deriving DecidableEq

/-- One row of the quiz_attempts table. -/
structure QuizAttempt where
  id : Nat
  user_id : Nat
  quiz_id : Nat
  score : Int
  total_questions : Int
  completed_at : Int
deriving DecidableEq

/-- One row of the referrals table. -/
structure Referral where
  id : Nat
  referrer_id : Nat
  referred_id : Nat
  created_at : Int
deriving DecidableEq

/-- The database state: the tables of the schema touched by the operations
under study (quizzes, questions, user_progress and premium_content are never
read or written by them).  PRAGMA foreign_keys is enabled only on the
connection used by init_db; every operation below opens a fresh connection,
so no foreign-key check constrains them. -/
structure DB where
  users : List User
  sections : List Section
  subsections : List Subsection
  content : List Content
  quiz_attempts : List QuizAttempt
  referrals : List Referral
deriving DecidableEq

/-- SELECT * FROM users WHERE user_id = ? (get_user in the source). -/
def get_user (db : DB) (uid : Nat) : Option User :=
  db.users.find? (fun u => u.user_id == uid)

/-- UPDATE users SET ... WHERE user_id = ?: apply f to every row whose
user_id matches (the primary key makes it at most one in a real database). -/
def upd_user (db : DB) (uid : Nat) (f : User → User) : DB :=
  { db with users := db.users.map (fun u => if u.user_id == uid then f u else u) }

/-- The row create_user inserts: the six VALUES of its INSERT, with
username or "" and last_name or "" becoming getD "", and the schema's
column defaults filling the remaining fields. -/
def newUser (user_id : Nat) (username : Option String) (first_name : String)
    (last_name : Option String) (referred_by : Option Nat)
    (referral_code : String) (now : Int) : User :=
  { user_id := user_id
    username := username.getD ""
    first_name := first_name
    last_name := last_name.getD ""
    is_premium := false
    premium_expires_at := none
    referral_code := referral_code
    referred_by := referred_by
    created_at := now
    last_activity := now
    total_sessions := 0
    words_learned := 0
    quiz_score_total := 0
    quiz_attempts := 0
    rating_score := 0
    referral_count := 0 }

/-- create_user: INSERT OR IGNORE INTO users.  The insert is ignored when
any uniqueness constraint is violated: the user_id primary key or the UNIQUE
referral_code column.  The freshly generated code (secrets.randbelow in the
source) is the referral_code argument. -/
def create_user (db : DB) (user_id : Nat) (username : Option String)
    (first_name : String) (last_name : Option String) (referred_by : Option Nat)
    (referral_code : String) (now : Int) : DB :=
  if db.users.any (fun u => u.user_id == user_id || u.referral_code == referral_code) then
    db
  else
    { db with users := db.users ++
        [newUser user_id username first_name last_name referred_by referral_code now] }

/-- update_user_activity: SET last_activity = CURRENT_TIMESTAMP,
total_sessions = total_sessions + 1 WHERE user_id = ?. -/
def update_user_activity (db : DB) (uid : Nat) (now : Int) : DB :=
  upd_user db uid (fun u => { u with last_activity := now, total_sessions := u.total_sessions + 1 })

/-- is_premium_active: false when the row is missing or the flag is unset or
the expiry column is NULL or fromisoformat raises; otherwise
datetime.now() < expires_at. -/
def is_premium_active (db : DB) (uid : Nat) (now : Int) : Bool :=
  match get_user db uid with
  | none => false
  | some u =>
    if !u.is_premium then false
    else
      match u.premium_expires_at with
      | none => false
      | some ts =>
        match parseTs ts with
        | none => false
        | some e => decide (now < e)

/-- timedelta(days = d) in seconds. -/
def secondsPerDay : Int := 86400

/-- activate_premium: SET is_premium = TRUE,
premium_expires_at = (now + timedelta(days = duration_days)).isoformat()
WHERE user_id = ?.  The stored string always parses back. -/
def activate_premium (db : DB) (uid : Nat) (duration_days : Nat := 30) (now : Int := 0) : DB :=
  upd_user db uid (fun u =>
    { u with is_premium := true
             premium_expires_at := some (TsVal.valid (now + secondsPerDay * duration_days)) })

/-- revoke_premium: SET is_premium = FALSE, premium_expires_at = NULL. -/
def revoke_premium (db : DB) (uid : Nat) : DB :=
  upd_user db uid (fun u => { u with is_premium := false, premium_expires_at := none })

/-- update_user_rating: SET rating_score = rating_score + ?. -/
def update_user_rating (db : DB) (uid : Nat) (points : ℚ) : DB :=
  upd_user db uid (fun u => { u with rating_score := u.rating_score + points })

/-- update_words_learned: SET words_learned = words_learned + ?. -/
def update_words_learned (db : DB) (uid : Nat) (count : Int := 1) : DB :=
  upd_user db uid (fun u => { u with words_learned := u.words_learned + count })

/-- update_referral_count: SET referral_count = referral_count + 1. -/
def update_referral_count (db : DB) (uid : Nat) : DB :=
  upd_user db uid (fun u => { u with referral_count := u.referral_count + 1 })

/-- reset_referral_count: SET referral_count = 0. -/
def reset_referral_count (db : DB) (uid : Nat) : DB :=
  upd_user db uid (fun u => { u with referral_count := 0 })

/-- The AUTOINCREMENT id for a new referrals row. -/
def nextReferralId (db : DB) : Nat :=
  (db.referrals.map (fun r => r.id)).foldr max 0 + 1

/-- add_referral: INSERT INTO referrals (referrer_id, referred_id). -/
def add_referral (db : DB) (referrer_id referred_id : Nat) (now : Int) : DB :=
  { db with referrals := db.referrals ++
      [{ id := nextReferralId db
         referrer_id := referrer_id
         referred_id := referred_id
         created_at := now }] }

/-- get_user_referrals_count: SELECT COUNT(*) FROM referrals
WHERE referrer_id = ?. -/
def get_user_referrals_count (db : DB) (uid : Nat) : Nat :=
  (db.referrals.filter (fun r => r.referrer_id == uid)).length

/-- The language part of get_sections's WHERE clause: the filter is added
only when the Python argument is truthy (not None and not ""). -/
def sectionLangOk (language : Option String) (s : Section) : Bool :=
  match language with
  | none => true
  | some l => if l == "" then true else s.language == l

/-- The premium part of get_sections's WHERE clause: added whenever the
argument is not None (so False does add the filter). -/
def sectionPremOk (premium : Option Bool) (s : Section) : Bool :=
  match premium with
  | none => true
  | some b => s.is_premium == b

/-- The comparator realising ORDER BY created_at (ascending). -/
def createdLe (a b : Section) : Bool :=
  decide (a.created_at ≤ b.created_at)

/-- The SELECT of get_sections: FROM sections with the optional language
and premium filters, ORDER BY created_at (ascending).  These are the rows
fetchall hands back. -/
def sections_query (db : DB) (language : Option String := none)
    (premium : Option Bool := none) : List Section :=
  (db.sections.filter
    (fun s => sectionLangOk language s && sectionPremOk premium s)).mergeSort createdLe

/-- get_sections: runs the query and then evaluates
[dict(row) for row in rows] if rows else [].  The connection sets no
row_factory, so fetchall returns plain tuples and dict(row) raises
TypeError at the first row; hence every non-empty result raises and only
an empty result returns (the empty list). -/
def get_sections (db : DB) (language : Option String := none)
    (premium : Option Bool := none) : Except String (List Section) :=
  match sections_query db language premium with
  | [] => Except.ok []
  | _ :: _ => Except.error "TypeError"

/-- delete_section: DELETE FROM content WHERE section_id = ?; DELETE FROM
subsections WHERE section_id = ?; DELETE FROM sections WHERE id = ?; one
commit.  Note the content delete keys on section_id only. -/
def delete_section (db : DB) (section_id : Nat) : DB :=
  { db with
      content := db.content.filter (fun c => !(c.section_id == section_id))
      subsections := db.subsections.filter (fun s => !(s.section_id == section_id))
      sections := db.sections.filter (fun s => !(s.id == section_id)) }

/-- The AUTOINCREMENT id for a new quiz_attempts row. -/
def nextAttemptId (db : DB) : Nat :=
  (db.quiz_attempts.map (fun a => a.id)).foldr max 0 + 1

/-- record_quiz_attempt: INSERT INTO quiz_attempts followed by UPDATE users
SET quiz_score_total = quiz_score_total + ?, quiz_attempts =
quiz_attempts + 1, both on one connection ended by a single commit, hence
one transition. -/
def record_quiz_attempt (db : DB) (uid qid : Nat) (score total_questions : Int)
    (now : Int) : DB :=
  let db1 : DB :=
    { db with quiz_attempts := db.quiz_attempts ++
        [{ id := nextAttemptId db
           user_id := uid
           quiz_id := qid
           score := score
           total_questions := total_questions
           completed_at := now }] }
  upd_user db1 uid (fun u =>
    { u with quiz_score_total := u.quiz_score_total + score
             quiz_attempts := u.quiz_attempts + 1 })

/-- The ORDER BY of get_leaderboard, as a relation: a precedes b when a's
key (rating_score DESC, words_learned DESC, quiz_score_total DESC) is no
worse than b's. -/
def lbRel (a b : User) : Prop :=
  b.rating_score < a.rating_score ∨
    (b.rating_score = a.rating_score ∧
      (b.words_learned < a.words_learned ∨
        (b.words_learned = a.words_learned ∧ b.quiz_score_total ≤ a.quiz_score_total)))

instance (a b : User) : Decidable (lbRel a b) := by
  unfold lbRel; infer_instance

/-- Boolean form of lbRel, used as the comparator of the sort. -/
def lbLe (a b : User) : Bool := decide (lbRel a b)

/-- get_leaderboard: SELECT ... FROM users WHERE rating_score > 0 ORDER BY
rating_score DESC, words_learned DESC, quiz_score_total DESC LIMIT ?.  The
source projects six columns of each selected row; we return the rows. -/
def get_leaderboard (db : DB) (limit : Nat := 10) : List User :=
  ((db.users.filter (fun u => decide (0 < u.rating_score))).mergeSort lbLe).take limit

/-! Helper lemmas about the WHERE user_id = ? update shape. -/

lemma find?_map_upd (uid : Nat) (f : User → User)
    (hf : ∀ u, (f u).user_id = u.user_id) (l : List User) :
    (l.map (fun u => if u.user_id == uid then f u else u)).find? (fun u => u.user_id == uid)
      = (l.find? (fun u => u.user_id == uid)).map f := by
  induction l with
  | nil => rfl
  | cons a t ih =>
    simp only [List.map_cons]
    by_cases h : (a.user_id == uid) = true
    · have hfa : ((f a).user_id == uid) = true := by rw [hf]; exact h
      rw [if_pos h, List.find?_cons_of_pos (p := fun u : User => u.user_id == uid) _ hfa,
        List.find?_cons_of_pos (p := fun u : User => u.user_id == uid) _ h]
      rfl
    · rw [if_neg h, List.find?_cons_of_neg (p := fun u : User => u.user_id == uid) _ h,
        List.find?_cons_of_neg (p := fun u : User => u.user_id == uid) _ h]
      exact ih

lemma map_upd_id (uid : Nat) (f : User → User) (l : List User)
    (h : ∀ u ∈ l, u.user_id ≠ uid) :
    l.map (fun u => if u.user_id == uid then f u else u) = l := by
  induction l with
  | nil => rfl
  | cons a t ih =>
    have ha : ¬ ((a.user_id == uid) = true) := by
      simp only [beq_iff_eq]
      exact h a (List.mem_cons_self a t)
    simp only [List.map_cons, if_neg ha]
    rw [ih (fun u hu => h u (List.mem_cons_of_mem a hu))]

lemma upd_user_not_found (db : DB) (uid : Nat) (f : User → User)
    (h : ∀ u ∈ db.users, u.user_id ≠ uid) : upd_user db uid f = db := by
  unfold upd_user
  rw [map_upd_id uid f db.users h]

lemma get_user_upd (db : DB) (uid : Nat) (f : User → User)
    (hf : ∀ u, (f u).user_id = u.user_id) :
    get_user (upd_user db uid f) uid = (get_user db uid).map f := by
  unfold get_user upd_user
  exact find?_map_upd uid f hf db.users

/-- C4: is_premium_active(U) is true iff U exists, U's premium flag is set,
an expiry timestamp is present, the timestamp parses, and it is strictly
later than the evaluation time.  The function is total, so an unparsable
stored timestamp yields false rather than an exception. -/
theorem is_premium_active_iff (db : DB) (uid : Nat) (now : Int) :
    is_premium_active db uid now = true ↔
      ∃ u, get_user db uid = some u ∧ u.is_premium = true ∧
        ∃ ts, u.premium_expires_at = some ts ∧
          ∃ e, parseTs ts = some e ∧ now < e := by
  unfold is_premium_active
  cases hu : get_user db uid with
  | none => simp
  | some u =>
    simp only [Option.some.injEq]
    by_cases hp : u.is_premium
    · cases hts : u.premium_expires_at with
      | none => simp [hp, hts]
      | some ts =>
        cases he : parseTs ts with
        | none => simp [hp, hts, he]
        | some e => simp [hp, hts, he]
    · simp [hp]

/-- C10: every account mutation addressed by a user id that matches no row
(activity touch, premium activation and revocation, rating, words-learned
and referral-count adjustments, referral-count reset) leaves the entire
database state unchanged and raises nothing: each is a single UPDATE whose
WHERE clause selects no row. -/
theorem missing_user_updates_noop (db : DB) (uid : Nat) (now : Int) (d : Nat)
    (p : ℚ) (c : Int) (h : ∀ u ∈ db.users, u.user_id ≠ uid) :
    update_user_activity db uid now = db ∧
    activate_premium db uid d now = db ∧
    revoke_premium db uid = db ∧
    update_user_rating db uid p = db ∧
    update_words_learned db uid c = db ∧
    update_referral_count db uid = db ∧
    reset_referral_count db uid = db :=
  ⟨upd_user_not_found db uid _ h, upd_user_not_found db uid _ h,
   upd_user_not_found db uid _ h, upd_user_not_found db uid _ h,
   upd_user_not_found db uid _ h, upd_user_not_found db uid _ h,
   upd_user_not_found db uid _ h⟩

/-- C3: record_quiz_attempt appends exactly one attempt row for (U, Q) and,
in the same single transition (the source runs both statements in one
transaction ended by one commit), adds the score to U's quiz_score_total and
1 to U's quiz_attempts; no other table changes. -/
theorem record_quiz_attempt_atomic (db : DB) (uid qid : Nat)
    (score tq now : Int) :
    (record_quiz_attempt db uid qid score tq now).quiz_attempts
        = db.quiz_attempts ++
          [{ id := nextAttemptId db, user_id := uid, quiz_id := qid,
             score := score, total_questions := tq, completed_at := now }] ∧
    ((record_quiz_attempt db uid qid score tq now).quiz_attempts.filter
          (fun a => a.user_id == uid && a.quiz_id == qid)).length
        = ((db.quiz_attempts.filter
              (fun a => a.user_id == uid && a.quiz_id == qid)).length) + 1 ∧
    get_user (record_quiz_attempt db uid qid score tq now) uid
        = (get_user db uid).map (fun u =>
            { u with quiz_score_total := u.quiz_score_total + score
                     quiz_attempts := u.quiz_attempts + 1 }) ∧
    (record_quiz_attempt db uid qid score tq now).sections = db.sections ∧
    (record_quiz_attempt db uid qid score tq now).referrals = db.referrals := by
  refine ⟨rfl, ?_, ?_, rfl, rfl⟩
  · show ((db.quiz_attempts ++ [_]).filter _).length = _
    simp [List.filter_append]
  · exact get_user_upd _ uid _ (fun u => rfl)

/-- C8: add_referral appends one edge, making get_user_referrals_count(A)
one larger, while leaving the users table (hence the denormalized
referral_count field) untouched; update_referral_count(A) is the operation
that bumps the field by one, and it does not touch the referrals table. -/
theorem referral_count_tracking (db : DB) (A B : Nat) (now : Int) :
    get_user_referrals_count (add_referral db A B now) A
        = get_user_referrals_count db A + 1 ∧
    (add_referral db A B now).users = db.users ∧
    get_user (update_referral_count db A) A
        = (get_user db A).map (fun u =>
            { u with referral_count := u.referral_count + 1 }) ∧
    (update_referral_count db A).referrals = db.referrals := by
  refine ⟨?_, rfl, ?_, rfl⟩
  · simp [get_user_referrals_count, add_referral, List.filter_append]
  · exact get_user_upd db A _ (fun u => rfl)

/-! Concrete states used to exercise the theorems. -/

/-- A user row as create_user would leave it for id 1. -/
def u1 : User :=
  { user_id := 1, username := "a", first_name := "A", last_name := ""
    is_premium := false, premium_expires_at := none
    referral_code := "REF000001", referred_by := none
    created_at := 0, last_activity := 0, total_sessions := 0
    words_learned := 0, quiz_score_total := 0, quiz_attempts := 0
    rating_score := 0, referral_count := 0 }

/-- A database holding just user 1. -/
def dbW : DB :=
  { users := [u1], sections := [], subsections := [], content := []
    quiz_attempts := [], referrals := [] }

/-- The freshly initialised, empty database. -/
def dbEmpty : DB :=
  { users := [], sections := [], subsections := [], content := []
    quiz_attempts := [], referrals := [] }

theorem missing_user_updates_noop_witness :
    (∀ u ∈ dbW.users, u.user_id ≠ 2) ∧
    (update_user_activity dbW 2 5 = dbW ∧
     activate_premium dbW 2 30 5 = dbW ∧
     revoke_premium dbW 2 = dbW ∧
     update_user_rating dbW 2 1 = dbW ∧
     update_words_learned dbW 2 3 = dbW ∧
     update_referral_count dbW 2 = dbW ∧
     reset_referral_count dbW 2 = dbW) :=
  ⟨by decide, missing_user_updates_noop dbW 2 5 30 1 3 (by decide)⟩

/-- C5 (amended): for an existing user and a strictly positive number of
days, activate_premium overwrites the stored expiry with activation time
plus the duration and sets the flag, after which the premium is active at
the activation instant and at every instant before the expiry, and inactive
from the expiry instant on. -/
theorem activate_premium_positive_duration (db : DB) (uid : Nat) (d : Nat)
    (now : Int) (u : User) (hu : get_user db uid = some u) (hd : 1 ≤ d) :
    get_user (activate_premium db uid d now) uid
        = some { u with is_premium := true
                        premium_expires_at :=
                          some (TsVal.valid (now + secondsPerDay * d)) } ∧
    is_premium_active (activate_premium db uid d now) uid now = true ∧
    (∀ t : Int, t < now + secondsPerDay * d →
        is_premium_active (activate_premium db uid d now) uid t = true) ∧
    (∀ t : Int, now + secondsPerDay * d ≤ t →
        is_premium_active (activate_premium db uid d now) uid t = false) := by
  have hg : get_user (activate_premium db uid d now) uid
      = some { u with is_premium := true
                      premium_expires_at :=
                        some (TsVal.valid (now + secondsPerDay * d)) } := by
    have h := get_user_upd db uid
      (fun v => { v with is_premium := true
                         premium_expires_at :=
                           some (TsVal.valid (now + secondsPerDay * d)) })
      (fun v => rfl)
    rw [hu] at h
    exact h
  have hact : ∀ t : Int, is_premium_active (activate_premium db uid d now) uid t
      = decide (t < now + secondsPerDay * d) := by
    intro t
    unfold is_premium_active
    rw [hg]
    rfl
  refine ⟨hg, ?_, ?_, ?_⟩
  · rw [hact now]
    simp only [decide_eq_true_eq, secondsPerDay]
    omega
  · intro t ht
    rw [hact t]
    simpa using ht
  · intro t ht
    rw [hact t]
    simp only [decide_eq_false_iff_not, not_lt]
    exact ht

theorem activate_premium_positive_duration_witness :
    (get_user dbW 1 = some u1 ∧ 1 ≤ 30) ∧
    (get_user (activate_premium dbW 1 30 0) 1
        = some { u1 with is_premium := true
                         premium_expires_at :=
                           some (TsVal.valid (0 + secondsPerDay * (30 : Nat))) } ∧
     is_premium_active (activate_premium dbW 1 30 0) 1 0 = true ∧
     (∀ t : Int, t < 0 + secondsPerDay * (30 : Nat) →
         is_premium_active (activate_premium dbW 1 30 0) 1 t = true) ∧
     (∀ t : Int, 0 + secondsPerDay * (30 : Nat) ≤ t →
         is_premium_active (activate_premium dbW 1 30 0) 1 t = false)) :=
  ⟨⟨rfl, by decide⟩,
   activate_premium_positive_duration dbW 1 30 0 u1 rfl (by decide)⟩

/-- C5 counterexample: the comparison in is_premium_active is strict, so a
duration of 0 days leaves the premium inactive at the activation instant
itself, against the claim that it is true immediately after for every
duration. -/
theorem activate_premium_zero_duration_not_active :
    get_user dbW 1 = some u1 ∧
    is_premium_active (activate_premium dbW 1 0 0) 1 0 = false :=
  ⟨rfl, rfl⟩

/-- C7: when the id is new and the first generated code is fresh, the first
create_user inserts one row and the second call with the same id is ignored
whole: the state, including the stored referral code, is unchanged, no
error is raised, and exactly one row with the id exists. -/
theorem create_user_twice_single_row (db : DB) (uid : Nat)
    (un1 un2 : Option String) (fn1 fn2 : String) (ln1 ln2 : Option String)
    (rb1 rb2 : Option Nat) (code1 code2 : String) (t1 t2 : Int)
    (h1 : ∀ u ∈ db.users, u.user_id ≠ uid)
    (h2 : ∀ u ∈ db.users, u.referral_code ≠ code1) :
    create_user (create_user db uid un1 fn1 ln1 rb1 code1 t1)
        uid un2 fn2 ln2 rb2 code2 t2
      = create_user db uid un1 fn1 ln1 rb1 code1 t1 ∧
    ((create_user db uid un1 fn1 ln1 rb1 code1 t1).users.filter
        (fun u => u.user_id == uid)).length = 1 := by
  have hcond : (db.users.any
      (fun u => u.user_id == uid || u.referral_code == code1)) = false := by
    rw [List.any_eq_false]
    intro u hu
    simp [h1 u hu, h2 u hu]
  have hdb1 : create_user db uid un1 fn1 ln1 rb1 code1 t1
      = { db with users := db.users ++ [newUser uid un1 fn1 ln1 rb1 code1 t1] } := by
    simp [create_user, hcond]
  have hfilter : db.users.filter (fun u => u.user_id == uid) = [] := by
    rw [List.filter_eq_nil_iff]
    intro u hu
    simp [h1 u hu]
  constructor
  · have hmem : ((db.users ++ [newUser uid un1 fn1 ln1 rb1 code1 t1]).any
        (fun u => u.user_id == uid || u.referral_code == code2)) = true := by
      simp [List.any_append, newUser]
    rw [hdb1]
    simp [create_user, hmem]
  · rw [hdb1]
    simp [List.filter_append, hfilter, newUser]

theorem create_user_twice_single_row_witness :
    ((∀ u ∈ dbEmpty.users, u.user_id ≠ 1) ∧
     (∀ u ∈ dbEmpty.users, u.referral_code ≠ "REF000001")) ∧
    (create_user (create_user dbEmpty 1 none "F" none none "REF000001" 0)
          1 none "F" none none "REF000002" 1
        = create_user dbEmpty 1 none "F" none none "REF000001" 0 ∧
     ((create_user dbEmpty 1 none "F" none none "REF000001" 0).users.filter
        (fun u => u.user_id == 1)).length = 1) :=
  ⟨⟨by decide, by decide⟩,
   create_user_twice_single_row dbEmpty 1 none none "F" "F" none none none none
     "REF000001" "REF000002" 0 1 (by decide) (by decide)⟩

/-- C2: create_user uses INSERT OR IGNORE, so when the freshly generated
code for the new id 2 collides with user 1's stored code the insert is
silently skipped: no error is surfaced, but no retry with a regenerated
code happens and the new user row is dropped, against the claim that the
operation retries until the row is inserted. -/
theorem create_user_collision_drops_user :
    (∃ u ∈ dbW.users, u.referral_code = "REF000001") ∧
    (∀ u ∈ dbW.users, u.user_id ≠ 2) ∧
    create_user dbW 2 none "New" none none "REF000001" 7 = dbW := by
  refine ⟨⟨u1, by decide, rfl⟩, by decide, ?_⟩
  rfl

/-- The section, subsection and content rows of the C1 state: content row
100 hangs off subsection 10 of section 1 through subsection_id, with the
section_id = 0 "unassigned" sentinel the schema defaults allow. -/
def sec1 : Section :=
  { id := 1, name := "S", description := "", language := "korean"
    is_premium := false, created_at := 0, created_by := none }

def sub10 : Subsection :=
  { id := 10, section_id := 1, name := "T", description := ""
    is_premium := false, created_at := 0 }

def c100 : Content :=
  { id := 100, section_id := 0, subsection_id := 10, title := "C"
    description := "", content_type := "text", file_id := none
    content_text := some "x", is_premium := false, created_at := 0 }

def dbC1 : DB :=
  { users := [], sections := [sec1], subsections := [sub10]
    content := [c100], quiz_attempts := [], referrals := [] }

/-! Sorting facts for the two ORDER BY queries. -/

lemma createdLe_trans : ∀ a b c : Section,
    createdLe a b = true → createdLe b c = true → createdLe a c = true := by
  intro a b c hab hbc
  simp only [createdLe, decide_eq_true_eq] at *
  omega

lemma createdLe_total : ∀ a b : Section, (createdLe a b || createdLe b a) = true := by
  intro a b
  simp only [createdLe, Bool.or_eq_true, decide_eq_true_eq]
  omega

/-- The sort key of get_leaderboard, descending lexicographically. -/
def lbKey (u : User) : ℚ ×ₗ (ℤ ×ₗ ℤ) :=
  toLex (u.rating_score, toLex (u.words_learned, u.quiz_score_total))

lemma lbRel_iff_key (a b : User) : lbRel a b ↔ lbKey b ≤ lbKey a := by
  simp [lbRel, lbKey, Prod.Lex.le_iff]

lemma lbLe_trans : ∀ a b c : User,
    lbLe a b = true → lbLe b c = true → lbLe a c = true := by
  intro a b c hab hbc
  simp only [lbLe, decide_eq_true_eq, lbRel_iff_key] at *
  exact le_trans hbc hab

lemma lbLe_total : ∀ a b : User, (lbLe a b || lbLe b a) = true := by
  intro a b
  simp only [lbLe, Bool.or_eq_true, decide_eq_true_eq, lbRel_iff_key]
  exact le_total (lbKey b) (lbKey a)

/-- C6: get_leaderboard returns at most N rows, all with strictly positive
rating_score, pairwise ordered by rating_score descending with ties broken
by words_learned descending and then quiz_score_total descending; the
caller-omitted limit defaults to 10. -/
theorem get_leaderboard_spec (db : DB) (N : Nat) :
    (get_leaderboard db N).length ≤ N ∧
    (∀ u ∈ get_leaderboard db N, 0 < u.rating_score) ∧
    (get_leaderboard db N).Pairwise lbRel ∧
    get_leaderboard db = get_leaderboard db 10 := by
  refine ⟨?_, ?_, ?_, rfl⟩
  · exact List.length_take_le N _
  · intro u hu
    have hm := List.mem_mergeSort.mp (List.mem_of_mem_take hu)
    have := (List.mem_filter.mp hm).2
    simpa using this
  · have hs := List.sorted_mergeSort lbLe_trans lbLe_total
      (db.users.filter (fun u => decide (0 < u.rating_score)))
    have hp : (get_leaderboard db N).Pairwise (fun a b => lbLe a b = true) :=
      List.Pairwise.sublist (List.take_sublist N _) hs
    exact hp.imp (fun h => of_decide_eq_true h)

/-- A ratings table matching the worked example of the specification:
ratings 5, 5, 3 and 0 with words learned 10, 20, 5 and 0. -/
def dbLB : DB :=
  { users :=
      [{ u1 with user_id := 11, rating_score := 5, words_learned := 10 },
       { u1 with user_id := 12, rating_score := 5, words_learned := 20 },
       { u1 with user_id := 13, rating_score := 3, words_learned := 5 },
       { u1 with user_id := 14, rating_score := 0, words_learned := 0 }]
    sections := [], subsections := [], content := []
    quiz_attempts := [], referrals := [] }

theorem get_leaderboard_spec_witness :
    (get_leaderboard dbLB 3).length ≤ 3 ∧
    (∀ u ∈ get_leaderboard dbLB 3, 0 < u.rating_score) ∧
    (get_leaderboard dbLB 3).Pairwise lbRel ∧
    get_leaderboard dbLB = get_leaderboard dbLB 10 :=
  get_leaderboard_spec dbLB 3

/-- Two korean non-premium sections stored out of creation order, one
premium korean section and one uzbek section. -/
def dbSec : DB :=
  { users := [], subsections := [], content := []
    quiz_attempts := [], referrals := []
    sections :=
      [{ sec1 with id := 2, created_at := 5 },
       { sec1 with id := 3, created_at := 2 },
       { sec1 with id := 4, created_at := 1, is_premium := true },
       { sec1 with id := 5, created_at := 0, language := "uzbek" }] }

/-- C9: the SELECT produces the two matching korean non-premium sections
(so the premium filter is applied and matching rows exist), but
get_sections then runs dict(row) over the fetched tuple rows, which raises
TypeError for every non-empty result: the call raises on exactly the
inputs the claim describes and returns only when the result is empty. -/
theorem get_sections_dict_raises_on_nonempty :
    (sections_query dbSec (some "korean") (some false)).length = 2 ∧
    get_sections dbSec (some "korean") (some false) = Except.error "TypeError" ∧
    get_sections dbEmpty (some "korean") (some false) = Except.ok [] := by
  have hlen : (sections_query dbSec (some "korean") (some false)).length = 2 := by
    unfold sections_query
    rw [List.length_mergeSort]
    decide
  refine ⟨hlen, ?_, ?_⟩
  · unfold get_sections
    cases hrows : sections_query dbSec (some "korean") (some false) with
    | nil => rw [hrows] at hlen; simp at hlen
    | cons a t => rfl
  · simp [get_sections, sections_query, dbEmpty]

/-- C1: delete_section deletes content only by its section_id column, so
content row 100, which belongs to subsection 10 of section 1 through
subsection_id, survives delete_section 1 while the section and the
subsection themselves are removed — the claim that no content row of a
subsection of S remains is violated and the row is left orphaned. -/
theorem delete_section_keeps_subsection_content :
    sub10 ∈ dbC1.subsections ∧ sub10.section_id = 1 ∧
    c100 ∈ dbC1.content ∧ c100.subsection_id = sub10.id ∧
    (delete_section dbC1 1).sections = [] ∧
    (delete_section dbC1 1).subsections = [] ∧
    (delete_section dbC1 1).content = [c100] := by
  decide

end KoYa
